import Mathlib

/-!
Shallow embedding of the streaming subsystem of the tradier_api library
(files tradier_streams.py, tradier_controllers.py, tradier_params.py,
tradier_types.py), together with theorems settling the spec claims about
callback ordering, error propagation, parameter validation and controller
lifecycle.

Conventions: the effectful environment of a run (results of network calls,
the stop-event flag at each check, the sequence of received lines/frames) is
passed explicitly; a run returns the ordered list of callback invocations it
performs together with how it exits (normal return, or an exception escaping
run).
-/

/-- Errors that can flow through the streaming code, tagged by the Python
exception class that carries them. `decodeError` is UnicodeDecodeError from
chunk.decode, `apiError` is TradierAPIException, `requestError` is
requests.exceptions.RequestException (including HTTPError),
`endOfStream` is the clean connection-closed exception raised by the
websocket recv, `otherError` is any other Exception. -/
inductive StreamError where
  | decodeError : List Nat → StreamError
  | apiError : String → StreamError
  | requestError : String → StreamError
  | endOfStream : StreamError
  | otherError : String → StreamError
  deriving DecidableEq, Repr

/-- One callback invocation performed by a run, in the order performed:
the four events of the TradierBaseStreamer callback contract. -/
inductive Event where
  | onOpen : Event
  | onMessage : String → Event
  | onError : StreamError → Event
  | onClose : Event
  deriving DecidableEq, Repr

/-- Parameter variants of tradier_params.py. The accountParams, orderParams
and watchlistParams variants are embedded from the source file; the
symbolsParams and excludedAccountParams variants are modelled from the spec
(their class definitions are absent from the provided sources, while the
streamers dispatch on them by isinstance): symbolsParams carries a symbol
list, excludedAccountParams an excluded-accounts filter. Only variant
identity is consulted by the code embedded here. -/
inductive BaseParams where
  | symbolsParams : List String → BaseParams
  | excludedAccountParams : List String → BaseParams
  | accountParams : String → BaseParams
  | orderParams : String → String → BaseParams
  | watchlistParams : String → Option String → BaseParams
  deriving DecidableEq, Repr

/-- True exactly on the SymbolsParams variant (the isinstance test used by
TradierHttpStreamer.run and TradierMarketsStreamer.run). -/
def BaseParams.isSymbolsParams : BaseParams → Bool
  | BaseParams.symbolsParams _ => true
  | _ => false

/-- True exactly on the ExcludedAccountParams variant (the isinstance test
used by TradierAccountStreamer.run). -/
def BaseParams.isExcludedAccountParams : BaseParams → Bool
  | BaseParams.excludedAccountParams _ => true
  | _ => false

/-- The streaming-related members of the Endpoints enumeration
(tradier_types.py). -/
inductive Endpoints where
  | CREATE_MARKET_SESSION : Endpoints
  | CREATE_ACCOUNT_SESSION : Endpoints
  | GET_STREAMING_QUOTES : Endpoints
  | GET_STREAMING_MARKET_EVENTS : Endpoints
  | GET_STREAMING_ACCOUNT_EVENTS : Endpoints
  deriving DecidableEq, Repr

/-- URL path of each streaming endpoint, from the ApiPaths values in
tradier_types.py (MARKETS_BASE and ACCOUNTS_BASE expanded). -/
def Endpoints.path : Endpoints → String
  | Endpoints.CREATE_MARKET_SESSION => "/v1/markets/events/session"
  | Endpoints.CREATE_ACCOUNT_SESSION => "/v1/accounts/\x7baccount_id\x7d/events/session"
  | Endpoints.GET_STREAMING_QUOTES => "/v1/markets/events"
  | Endpoints.GET_STREAMING_MARKET_EVENTS => "/v1/markets/events"
  | Endpoints.GET_STREAMING_ACCOUNT_EVENTS => "/v1/accounts/\x7baccount_id\x7d/events"

/-- How a run call terminates: a normal return, a ValueError raised out of
run, or another exception escaping run unhandled. -/
inductive RunExit where
  | normal : RunExit
  | valueError : String → RunExit
  | uncaught : StreamError → RunExit
  deriving DecidableEq, Repr

/-- Strict UTF-8 decoding of a byte sequence into Unicode code points, as
performed by Python bytes.decode: rejects stray continuation bytes, overlong
encodings, surrogate code points and values above 0x10FFFF; returns none on
any invalid sequence (UnicodeDecodeError). -/
def utf8DecodeCore : List Nat → Option (List Nat)
  | [] => some []
  | b :: rest =>
    if b < 0x80 then
      (utf8DecodeCore rest).map (fun cps => b :: cps)
    else if b < 0xC2 then
      none
    else if b < 0xE0 then
      match rest with
      | b1 :: rest1 =>
        if 0x80 ≤ b1 ∧ b1 < 0xC0 then
          (utf8DecodeCore rest1).map (fun cps => ((b - 0xC0) * 0x40 + (b1 - 0x80)) :: cps)
        else none
      | [] => none
    else if b < 0xF0 then
      match rest with
      | b1 :: b2 :: rest2 =>
        if (if b = 0xE0 then 0xA0 ≤ b1 ∧ b1 < 0xC0
            else if b = 0xED then 0x80 ≤ b1 ∧ b1 < 0xA0
            else 0x80 ≤ b1 ∧ b1 < 0xC0) ∧ (0x80 ≤ b2 ∧ b2 < 0xC0) then
          (utf8DecodeCore rest2).map
            (fun cps => ((b - 0xE0) * 0x1000 + (b1 - 0x80) * 0x40 + (b2 - 0x80)) :: cps)
        else none
      | _ => none
    else if b < 0xF5 then
      match rest with
      | b1 :: b2 :: b3 :: rest3 =>
        if (if b = 0xF0 then 0x90 ≤ b1 ∧ b1 < 0xC0
            else if b = 0xF4 then 0x80 ≤ b1 ∧ b1 < 0x90
            else 0x80 ≤ b1 ∧ b1 < 0xC0) ∧ (0x80 ≤ b2 ∧ b2 < 0xC0) ∧ (0x80 ≤ b3 ∧ b3 < 0xC0) then
          (utf8DecodeCore rest3).map
            (fun cps => ((b - 0xF0) * 0x40000 + (b1 - 0x80) * 0x1000
              + (b2 - 0x80) * 0x40 + (b3 - 0x80)) :: cps)
        else none
      | _ => none
    else none

/-- chunk.decode with encoding utf-8: the decoded string, or none when the
bytes are not valid UTF-8. -/
def decodeUtf8 (chunk : List Nat) : Option String :=
  (utf8DecodeCore chunk).map (fun cps => String.mk (cps.map Char.ofNat))

/-- Body of one iteration of the HTTP line loop for a received chunk, after
the stop-event check (tradier_streams.py lines 88 to 92): an empty (falsy)
chunk is skipped with no callback; otherwise the chunk is decoded as UTF-8
and forwarded to onMessage, and a decode failure is reported to onError. -/
def processChunk (chunk : List Nat) : List Event :=
  if chunk.isEmpty then []
  else
    match decodeUtf8 chunk with
    | some s => [Event.onMessage s]
    | none => [Event.onError (StreamError.decodeError chunk)]

/-- The for-loop of TradierHttpStreamer.run over response.iter_lines
(tradier_streams.py lines 85 to 92). `stop i` is the value of
stop_event.is_set at the check for the i-th received line; a set stop event
breaks out of the loop before the line is handled. -/
def httpStreamLoop (stop : Nat → Bool) : List (List Nat) → Nat → List Event
  | [], _ => []
  | chunk :: rest, i =>
    if stop i then []
    else processChunk chunk ++ httpStreamLoop stop rest (i + 1)

/-- Which exceptions the except clause at tradier_streams.py line 94
matches: TradierAPIException and requests.exceptions.RequestException. -/
def httpExceptClauseCatches : StreamError → Bool
  | StreamError.apiError _ => true
  | StreamError.requestError _ => true
  | _ => false

/-- Effectful environment of one TradierHttpStreamer.run call: the outcome
of requests.post plus response.raise_for_status (either a raised exception
or the byte lines that response.iter_lines subsequently yields), and the
stop-event flag as read at each per-line check. -/
structure HttpEnv where
  post : Except StreamError (List (List Nat))
  stop : Nat → Bool

/-- TradierHttpStreamer.run (tradier_streams.py lines 69 to 98). A
non-SymbolsParams argument raises ValueError before the try block, so no
callback fires. Otherwise onOpen fires first, then the POST is issued; a
post failure matched by the except clause is reported to onError while any
other raised exception escapes run; the line loop runs on success; the
finally block fires onClose on every path through the try statement. -/
def TradierHttpStreamer.run (params : BaseParams) (env : HttpEnv) : List Event × RunExit :=
  match params with
  | BaseParams.symbolsParams _ =>
    match env.post with
    | Except.ok lines =>
      (Event.onOpen :: (httpStreamLoop env.stop lines 0 ++ [Event.onClose]), RunExit.normal)
    | Except.error e =>
      if httpExceptClauseCatches e then
        ([Event.onOpen, Event.onError e, Event.onClose], RunExit.normal)
      else
        ([Event.onOpen, Event.onClose], RunExit.uncaught e)
  | _ => ([], RunExit.valueError "Invalid parameters for TradierHttpStreamer. Expected SymbolsParams.")

/-- One result of awaiting asyncio.wait_for(websocket.recv(), timeout=1.0)
inside the WebSocket receive loop: a received frame, a TimeoutError, or any
other raised exception. -/
inductive RecvResult where
  | frame : String → RecvResult
  | timeout : RecvResult
  | raised : StreamError → RecvResult
  deriving DecidableEq, Repr

/-- True exactly on the raised variant. -/
def RecvResult.isRaised : RecvResult → Bool
  | RecvResult.raised _ => true
  | _ => false

/-- Message carried by a frame result, none otherwise. -/
def RecvResult.frameMessage : RecvResult → Option String
  | RecvResult.frame m => some m
  | _ => none

/-- Effectful environment of one WebSocket run: the combined outcome of
websockets.connect plus websocket.send of the subscribe payload, the
stop-event flag as read at each while-loop check, the successive outcomes of
awaiting a frame, and the outcome of the final websocket.close. -/
structure WsEnv where
  connectSend : Except StreamError Unit
  stop : Nat → Bool
  recv : List RecvResult
  closeSocket : Except StreamError Unit

/-- The while-loop of TradierWebsocketStreamer.runStream (tradier_streams.py
lines 130 to 138). `stop i` is stop_event.is_set at the i-th loop check. A
received frame is forwarded to onMessage and the loop continues; a
TimeoutError is swallowed and the loop continues (re-checking the stop
event); any other exception is reported to onError once and breaks the
loop. An exhausted recv list models the environment ending the run there
(no further interactions are observed). -/
def wsReceiveLoop (stop : Nat → Bool) : List RecvResult → Nat → List Event
  | [], _ => []
  | r :: rest, i =>
    if stop i then []
    else
      match r with
      | RecvResult.frame m => Event.onMessage m :: wsReceiveLoop stop rest (i + 1)
      | RecvResult.timeout => wsReceiveLoop stop rest (i + 1)
      | RecvResult.raised e => [Event.onError e]

/-- Query-payload conversion BaseParams.to_query_params (tradier_params.py)
merged with the sessionid and linebreak entries added by the streamers. The
symbolsParams and excludedAccountParams conversions are modelled from the
spec (pure conversion to a flat string-keyed map); the conversion is total
and performs no callback. -/
def buildPayload (params : BaseParams) (sessionKey : String) : List (String × String) :=
  (match params with
   | BaseParams.symbolsParams syms => [("symbols", String.intercalate "," syms)]
   | BaseParams.excludedAccountParams accts => [("accounts", String.intercalate "," accts)]
   | BaseParams.accountParams aid => [("account_id", aid)]
   | BaseParams.orderParams aid oid => [("account_id", aid), ("order_id", oid)]
   | BaseParams.watchlistParams wid sym =>
     ("watchlist_id", wid) :: (match sym with | some s => [("symbol", s)] | none => []))
  ++ [("sessionid", sessionKey), ("linebreak", "True")]

/-- TradierWebsocketStreamer._run_stream (tradier_streams.py lines 111 to
146). The payload is converted first; an unset endpoint then raises
ValueError before the try block, so no callback fires at all. Inside the
try block: a connect-or-send failure skips onOpen and is reported to onError
by the outer except clause; on success onOpen fires, the receive loop runs,
and then websocket.close is awaited, whose failure also reaches the outer
except clause. The outer except matches every Exception, so no exception
escapes the try statement; the finally block fires onClose on every path
through it. -/
def TradierWebsocketStreamer.runStream (endpoint : Option Endpoints) (params : BaseParams)
    (sessionKey : String) (env : WsEnv) : List Event × RunExit :=
  let _payload := buildPayload params sessionKey
  match endpoint with
  | none => ([], RunExit.valueError "Endpoint is not set.")
  | some _ =>
    match env.connectSend with
    | Except.error e => ([Event.onError e, Event.onClose], RunExit.normal)
    | Except.ok _ =>
      let loopEvents := wsReceiveLoop env.stop env.recv 0
      match env.closeSocket with
      | Except.ok _ =>
        (Event.onOpen :: (loopEvents ++ [Event.onClose]), RunExit.normal)
      | Except.error e =>
        (Event.onOpen :: (loopEvents ++ [Event.onError e, Event.onClose]), RunExit.normal)

/-- TradierWebsocketStreamer.run (tradier_streams.py lines 147 to 157):
runs _run_stream to completion on a fresh event loop; run_until_complete
re-raises any exception the coroutine raised, and the finally block only
shuts the loop down (performing no callback), so the observable behaviour
is that of _run_stream. -/
def TradierWebsocketStreamer.run (endpoint : Option Endpoints) (params : BaseParams)
    (sessionKey : String) (env : WsEnv) : List Event × RunExit :=
  TradierWebsocketStreamer.runStream endpoint params sessionKey env

/-- TradierMarketsStreamer.run (tradier_streams.py lines 168 to 174): a
non-SymbolsParams argument raises ValueError before anything else; otherwise
the WebSocket run executes with the endpoint set by the constructor to
GET_STREAMING_MARKET_EVENTS. -/
def TradierMarketsStreamer.run (params : BaseParams) (sessionKey : String)
    (env : WsEnv) : List Event × RunExit :=
  match params with
  | BaseParams.symbolsParams _ =>
    TradierWebsocketStreamer.run (some Endpoints.GET_STREAMING_MARKET_EVENTS) params sessionKey env
  | _ => ([], RunExit.valueError "Invalid parameters for TradierMarketsStreamer. Expected SymbolsParams.")

/-- TradierAccountStreamer.run (tradier_streams.py lines 185 to 191): a
non-ExcludedAccountParams argument raises ValueError before anything else;
otherwise the WebSocket run executes with the endpoint set by the
constructor to GET_STREAMING_ACCOUNT_EVENTS. -/
def TradierAccountStreamer.run (params : BaseParams) (sessionKey : String)
    (env : WsEnv) : List Event × RunExit :=
  match params with
  | BaseParams.excludedAccountParams _ =>
    TradierWebsocketStreamer.run (some Endpoints.GET_STREAMING_ACCOUNT_EVENTS) params sessionKey env
  | _ => ([], RunExit.valueError "Invalid parameters for TradierAccountStreamer. Expected AccountParams.")

/-- Session endpoint reported by each concrete streamer through
get_session_endpoint (tradier_streams.py lines 66, 165 and 182). -/
inductive StreamerKind where
  | httpStreamer : StreamerKind
  | marketsStreamer : StreamerKind
  | accountStreamer : StreamerKind
  deriving DecidableEq, Repr

/-- get_session_endpoint of each concrete streamer class. -/
def StreamerKind.get_session_endpoint : StreamerKind → Endpoints
  | StreamerKind.httpStreamer => Endpoints.CREATE_MARKET_SESSION
  | StreamerKind.marketsStreamer => Endpoints.CREATE_MARKET_SESSION
  | StreamerKind.accountStreamer => Endpoints.CREATE_ACCOUNT_SESSION

/-- The endpoint TradierStreamController.create_session passes to
make_request (tradier_controllers.py line 129): the constant
Endpoints.CREATE_MARKET_SESSION, whatever streamer the controller wraps
(the streamer argument records the wrapped streamer and is not consulted). -/
def TradierStreamController.session_creation_endpoint (_streamer : StreamerKind) : Endpoints :=
  Endpoints.CREATE_MARKET_SESSION

/-- Observable state of a TradierStreamController (tradier_controllers.py
lines 119 to 151): the held session key, whether the stop event is set, and
the handle to the background thread when one has been recorded. -/
structure TradierStreamController where
  session_key : Option String
  stop_event : Bool
  thread : Option Unit
  deriving DecidableEq, Repr

/-- TradierStreamController.close (tradier_controllers.py lines 145 to
151): when a thread handle is present, set the stop event, join the thread
(modelled as the background context having exited when close returns) and
clear the handle; otherwise do nothing. -/
def TradierStreamController.close (c : TradierStreamController) : TradierStreamController :=
  match c.thread with
  | some _ => { c with stop_event := true, thread := none }
  | none => c

/-- True on onOpen. -/
def Event.isOpen : Event → Bool
  | Event.onOpen => true
  | _ => false

/-- True on onClose. -/
def Event.isClose : Event → Bool
  | Event.onClose => true
  | _ => false

/-- True on the events allowed between onOpen and onClose: onMessage and
onError. -/
def Event.isMiddle : Event → Bool
  | Event.onMessage _ => true
  | Event.onError _ => true
  | _ => false

/-- True on onError. -/
def Event.isError : Event → Bool
  | Event.onError _ => true
  | _ => false

/-- Number of events in a trace satisfying a predicate. -/
def countEvents (p : Event → Bool) (es : List Event) : Nat :=
  (es.filter p).length

/-- The onMessage payloads of a trace, in order. -/
def messagesOf (es : List Event) : List String :=
  es.filterMap (fun e => match e with | Event.onMessage s => some s | _ => none)

/-- The onError payloads of a trace, in order. -/
def errorsOf (es : List Event) : List StreamError :=
  es.filterMap (fun e => match e with | Event.onError err => some err | _ => none)

/-- A trace obeying the callback contract of one run: an optional leading
onOpen, then only onMessage and onError events, then a final onClose and
nothing after it. -/
def WellFormedTrace (es : List Event) : Prop :=
  ∃ mid : List Event, (∀ e ∈ mid, e.isMiddle = true) ∧
    (es = Event.onOpen :: (mid ++ [Event.onClose]) ∨ es = mid ++ [Event.onClose])

/-- The callback guarantees claimed for one run: a well-formed trace whose
last event is the single onClose, with at most one onOpen (and, by
well-formedness, onOpen only in leading position and no onMessage or
onError after onClose). -/
def RunTraceOk (es : List Event) : Prop :=
  WellFormedTrace es ∧ es.getLast? = some Event.onClose ∧
    countEvents Event.isClose es = 1 ∧ countEvents Event.isOpen es ≤ 1

theorem middle_not_open (e : Event) (h : e.isMiddle = true) : e.isOpen = false := by
  cases e <;> simp [Event.isMiddle, Event.isOpen] at h ⊢

theorem middle_not_close (e : Event) (h : e.isMiddle = true) : e.isClose = false := by
  cases e <;> simp [Event.isMiddle, Event.isClose] at h ⊢

theorem processChunk_middle (chunk : List Nat) (e : Event)
    (h : e ∈ processChunk chunk) : e.isMiddle = true := by
  unfold processChunk at h
  by_cases he : chunk.isEmpty
  · simp [he] at h
  · simp only [he, if_false] at h
    cases hd : decodeUtf8 chunk with
    | some s => rw [hd] at h; simp at h; subst h; rfl
    | none => rw [hd] at h; simp at h; subst h; rfl

theorem httpStreamLoop_middle (stop : Nat → Bool) :
    ∀ (lines : List (List Nat)) (i : Nat) (e : Event),
      e ∈ httpStreamLoop stop lines i → e.isMiddle = true := by
  intro lines
  induction lines with
  | nil => intro i e h; simp [httpStreamLoop] at h
  | cons chunk rest ih =>
    intro i e h
    unfold httpStreamLoop at h
    cases hs : stop i with
    | true => rw [hs] at h; simp at h
    | false =>
      rw [hs] at h
      simp only [Bool.false_eq_true, if_false] at h
      rcases List.mem_append.mp h with h | h
      · exact processChunk_middle chunk e h
      · exact ih (i + 1) e h

theorem wsReceiveLoop_middle (stop : Nat → Bool) :
    ∀ (recv : List RecvResult) (i : Nat) (e : Event),
      e ∈ wsReceiveLoop stop recv i → e.isMiddle = true := by
  intro recv
  induction recv with
  | nil => intro i e h; simp [wsReceiveLoop] at h
  | cons r rest ih =>
    intro i e h
    unfold wsReceiveLoop at h
    cases hs : stop i with
    | true => rw [hs] at h; simp at h
    | false =>
      rw [hs] at h
      simp only [Bool.false_eq_true, if_false] at h
      cases r with
      | frame m =>
        rcases List.mem_cons.mp h with h | h
        · subst h; rfl
        · exact ih (i + 1) e h
      | timeout => exact ih (i + 1) e h
      | raised err => simp at h; subst h; rfl

theorem wellFormedTrace_last (es : List Event) (h : WellFormedTrace es) :
    es.getLast? = some Event.onClose := by
  obtain ⟨mid, _, hform | hform⟩ := h
  · subst hform
    have h2 : Event.onOpen :: (mid ++ [Event.onClose])
        = (Event.onOpen :: mid) ++ [Event.onClose] := by simp
    rw [h2, List.getLast?_concat]
  · subst hform
    rw [List.getLast?_concat]

theorem wellFormedTrace_close_count (es : List Event) (h : WellFormedTrace es) :
    countEvents Event.isClose es = 1 := by
  obtain ⟨mid, hmid, hform | hform⟩ := h
  all_goals subst hform
  all_goals
    have hnil : mid.filter Event.isClose = [] := by
      apply List.filter_eq_nil_iff.mpr
      intro e he
      simp [middle_not_close e (hmid e he)]
  · unfold countEvents
    rw [List.filter_cons]
    simp only [List.filter_append, hnil, Event.isClose]
    simp [List.filter_cons, Event.isClose]
  · unfold countEvents
    simp only [List.filter_append, hnil]
    simp [List.filter_cons, Event.isClose]

theorem wellFormedTrace_open_count (es : List Event) (h : WellFormedTrace es) :
    countEvents Event.isOpen es ≤ 1 := by
  obtain ⟨mid, hmid, hform | hform⟩ := h
  all_goals subst hform
  all_goals
    have hnil : mid.filter Event.isOpen = [] := by
      apply List.filter_eq_nil_iff.mpr
      intro e he
      simp [middle_not_open e (hmid e he)]
  · unfold countEvents
    rw [List.filter_cons]
    simp only [List.filter_append, hnil, Event.isOpen]
    simp [List.filter_cons, Event.isOpen]
  · unfold countEvents
    simp only [List.filter_append, hnil]
    simp [List.filter_cons, Event.isOpen]

theorem httpRun_wellFormed (syms : List String) (env : HttpEnv) :
    WellFormedTrace (TradierHttpStreamer.run (BaseParams.symbolsParams syms) env).1 := by
  unfold TradierHttpStreamer.run
  cases hp : env.post with
  | ok lines =>
    refine ⟨httpStreamLoop env.stop lines 0, ?_, Or.inl rfl⟩
    intro e he
    exact httpStreamLoop_middle env.stop lines 0 e he
  | error e =>
    by_cases hc : httpExceptClauseCatches e
    · refine ⟨[Event.onError e], ?_, Or.inl ?_⟩
      · intro x hx; simp at hx; subst hx; rfl
      · simp [hc]
    · refine ⟨[], ?_, Or.inl ?_⟩
      · intro x hx; simp at hx
      · simp [hc]

theorem runStream_wellFormed (ep : Endpoints) (params : BaseParams) (sk : String)
    (env : WsEnv) :
    WellFormedTrace (TradierWebsocketStreamer.runStream (some ep) params sk env).1 := by
  unfold TradierWebsocketStreamer.runStream
  cases hc : env.connectSend with
  | error e =>
    refine ⟨[Event.onError e], ?_, Or.inr ?_⟩
    · intro x hx; simp at hx; subst hx; rfl
    · simp
  | ok u =>
    cases hcl : env.closeSocket with
    | ok v =>
      refine ⟨wsReceiveLoop env.stop env.recv 0, ?_, Or.inl ?_⟩
      · intro e he
        exact wsReceiveLoop_middle env.stop env.recv 0 e he
      · simp
    | error e =>
      refine ⟨wsReceiveLoop env.stop env.recv 0 ++ [Event.onError e], ?_, Or.inl ?_⟩
      · intro x hx
        rcases List.mem_append.mp hx with hx | hx
        · exact wsReceiveLoop_middle env.stop env.recv 0 x hx
        · simp at hx; subst hx; rfl
      · simp

theorem wellFormedTrace_runTraceOk (es : List Event) (h : WellFormedTrace es) :
    RunTraceOk es :=
  ⟨h, wellFormedTrace_last es h, wellFormedTrace_close_count es h,
   wellFormedTrace_open_count es h⟩

/-- C1: for every run of TradierHttpStreamer, TradierMarketsStreamer or
TradierAccountStreamer on a parameter value of the variant that transport
expects, and for every behaviour of the network environment and stop
signal, the emitted callback trace is totally ordered as at most one
leading onOpen, then only onMessage and onError events, then exactly one
onClose as the final event, on every exit path; in particular no onMessage
follows onClose. -/
theorem claim_C1_callback_order :
    ∀ (syms accts : List String) (sk : String) (henv : HttpEnv) (wenv wenv2 : WsEnv),
      RunTraceOk (TradierHttpStreamer.run (BaseParams.symbolsParams syms) henv).1
      ∧ RunTraceOk (TradierMarketsStreamer.run (BaseParams.symbolsParams syms) sk wenv).1
      ∧ RunTraceOk (TradierAccountStreamer.run
          (BaseParams.excludedAccountParams accts) sk wenv2).1 := by
  intro syms accts sk henv wenv wenv2
  refine ⟨wellFormedTrace_runTraceOk _ (httpRun_wellFormed syms henv), ?_, ?_⟩
  · have h : TradierMarketsStreamer.run (BaseParams.symbolsParams syms) sk wenv
      = TradierWebsocketStreamer.runStream (some Endpoints.GET_STREAMING_MARKET_EVENTS)
          (BaseParams.symbolsParams syms) sk wenv := rfl
    rw [h]
    exact wellFormedTrace_runTraceOk _ (runStream_wellFormed _ _ _ _)
  · have h : TradierAccountStreamer.run (BaseParams.excludedAccountParams accts) sk wenv2
      = TradierWebsocketStreamer.runStream (some Endpoints.GET_STREAMING_ACCOUNT_EVENTS)
          (BaseParams.excludedAccountParams accts) sk wenv2 := rfl
    rw [h]
    exact wellFormedTrace_runTraceOk _ (runStream_wellFormed _ _ _ _)

/-- C2, counterexample: in the HTTP transport a run whose connection setup
fails (requests.post raises a RequestException) has still invoked onOpen —
onOpen is the first statement of the try block, executed before the
streaming POST is issued — contradicting the claim that a connection-setup
failure implies onOpen was never invoked. -/
theorem claim_C2_counterexample :
    (TradierHttpStreamer.run (BaseParams.symbolsParams ["AAPL"])
       ⟨Except.error (StreamError.requestError "Streaming error"), fun _ => false⟩).1
      = [Event.onOpen, Event.onError (StreamError.requestError "Streaming error"),
         Event.onClose] := by
  decide

/-- C2, amended: for the WebSocket transport, onOpen is invoked only after
the handshake and subscribe-frame send complete and before any onMessage,
and a connect-or-send failure implies onOpen is never invoked; for the HTTP
transport, onOpen is invoked first, before the streaming POST is even
issued (hence before any onMessage), so a connection-setup failure does not
prevent onOpen. -/
theorem claim_C2_amended :
    (∀ (syms : List String) (env : HttpEnv),
       ((TradierHttpStreamer.run (BaseParams.symbolsParams syms) env).1).head?
         = some Event.onOpen)
    ∧ (∀ (ep : Endpoints) (params : BaseParams) (sk : String) (env : WsEnv)
         (e : StreamError),
         env.connectSend = Except.error e →
           Event.onOpen ∉ (TradierWebsocketStreamer.runStream (some ep) params sk env).1)
    ∧ (∀ (ep : Endpoints) (params : BaseParams) (sk : String) (env : WsEnv),
         env.connectSend = Except.ok () →
           ((TradierWebsocketStreamer.runStream (some ep) params sk env).1).head?
             = some Event.onOpen) := by
  refine ⟨?_, ?_, ?_⟩
  · intro syms env
    unfold TradierHttpStreamer.run
    cases hp : env.post with
    | ok lines => rfl
    | error e =>
      by_cases hc : httpExceptClauseCatches e
      · simp [hc]
      · simp [hc]
  · intro ep params sk env e hc
    unfold TradierWebsocketStreamer.runStream
    rw [hc]
    simp
  · intro ep params sk env hc
    unfold TradierWebsocketStreamer.runStream
    rw [hc]
    cases hcl : env.closeSocket with
    | ok v => rfl
    | error e => rfl

/-- C2, witness for the amended theorem at concrete inputs: the HTTP run on
a successful empty stream opens first, a failed WebSocket connect emits no
onOpen, and a successful WebSocket connect makes onOpen the first event. -/
theorem claim_C2_amended_witness :
    ((TradierHttpStreamer.run (BaseParams.symbolsParams ["AAPL"])
        ⟨Except.ok [], fun _ => false⟩).1).head? = some Event.onOpen
    ∧ Event.onOpen ∉ (TradierWebsocketStreamer.runStream
        (some Endpoints.GET_STREAMING_MARKET_EVENTS) (BaseParams.symbolsParams ["SPY"]) "sk"
        ⟨Except.error (StreamError.otherError "Connection error"), fun _ => false, [],
         Except.ok ()⟩).1
    ∧ ((TradierWebsocketStreamer.runStream
        (some Endpoints.GET_STREAMING_MARKET_EVENTS) (BaseParams.symbolsParams ["SPY"]) "sk"
        ⟨Except.ok (), fun _ => false, [], Except.ok ()⟩).1).head? = some Event.onOpen :=
  ⟨claim_C2_amended.1 ["AAPL"] ⟨Except.ok [], fun _ => false⟩,
   claim_C2_amended.2.1 Endpoints.GET_STREAMING_MARKET_EVENTS
     (BaseParams.symbolsParams ["SPY"]) "sk"
     ⟨Except.error (StreamError.otherError "Connection error"), fun _ => false, [],
      Except.ok ()⟩ (StreamError.otherError "Connection error") rfl,
   claim_C2_amended.2.2 Endpoints.GET_STREAMING_MARKET_EVENTS
     (BaseParams.symbolsParams ["SPY"]) "sk"
     ⟨Except.ok (), fun _ => false, [], Except.ok ()⟩ rfl⟩

/-- C3: the controller's create_session always requests
Endpoints.CREATE_MARKET_SESSION, also when the wrapped streamer is the
account streamer, whose own get_session_endpoint returns
Endpoints.CREATE_ACCOUNT_SESSION and is never consulted — the session the
controller creates for the account streamer therefore comes from the wrong
endpoint. -/
theorem claim_C3_endpoint_divergence :
    TradierStreamController.session_creation_endpoint StreamerKind.accountStreamer
        = Endpoints.CREATE_MARKET_SESSION
    ∧ StreamerKind.get_session_endpoint StreamerKind.accountStreamer
        = Endpoints.CREATE_ACCOUNT_SESSION
    ∧ TradierStreamController.session_creation_endpoint StreamerKind.accountStreamer
        ≠ StreamerKind.get_session_endpoint StreamerKind.accountStreamer := by
  refine ⟨rfl, rfl, ?_⟩
  decide

/-- C9: close is idempotent — with no recorded thread handle it leaves the
controller state unchanged (including when start was never called, or on a
second consecutive close), with a handle it sets the stop event, joins and
clears the handle, and applying close twice always equals applying it
once. -/
theorem claim_C9_close_idempotent :
    (∀ c : TradierStreamController, c.close.close = c.close)
    ∧ (∀ (sk : Option String) (st : Bool),
         TradierStreamController.close ⟨sk, st, none⟩ = ⟨sk, st, none⟩)
    ∧ (∀ (sk : Option String) (st : Bool),
         TradierStreamController.close ⟨sk, st, some ()⟩ = ⟨sk, true, none⟩) := by
  refine ⟨?_, ?_, ?_⟩
  · intro c
    cases c with
    | mk sk st th =>
      cases th with
      | none => rfl
      | some u => rfl
  · intro sk st
    rfl
  · intro sk st
    rfl

/-- C10: running the base WebSocket streamer with its endpoint unset
converts the parameters, then raises ValueError before any connection
attempt (the result does not depend on the connection environment), and
invokes no callback at all — an exit path of run with zero events, in
particular without the terminal onClose. -/
theorem claim_C10_unset_endpoint :
    ∀ (params : BaseParams) (sk : String) (env : WsEnv),
      TradierWebsocketStreamer.run none params sk env
        = ([], RunExit.valueError "Endpoint is not set.") := by
  intro params sk env
  rfl

/-- C5: for every parameter value not of the variant a transport expects,
run raises ValueError with an empty callback trace (so onOpen is never
invoked) and the result does not depend on the network environment (so the
failure happens before any connection is attempted). -/
theorem claim_C5_wrong_variant :
    (∀ (p : BaseParams) (env : HttpEnv), p.isSymbolsParams = false →
       TradierHttpStreamer.run p env
         = ([], RunExit.valueError
             "Invalid parameters for TradierHttpStreamer. Expected SymbolsParams."))
    ∧ (∀ (p : BaseParams) (sk : String) (env : WsEnv), p.isSymbolsParams = false →
       TradierMarketsStreamer.run p sk env
         = ([], RunExit.valueError
             "Invalid parameters for TradierMarketsStreamer. Expected SymbolsParams."))
    ∧ (∀ (p : BaseParams) (sk : String) (env : WsEnv), p.isExcludedAccountParams = false →
       TradierAccountStreamer.run p sk env
         = ([], RunExit.valueError
             "Invalid parameters for TradierAccountStreamer. Expected AccountParams.")) := by
  refine ⟨?_, ?_, ?_⟩
  · intro p env hp
    cases p <;> simp [BaseParams.isSymbolsParams] at hp ⊢ <;> rfl
  · intro p sk env hp
    cases p <;> simp [BaseParams.isSymbolsParams] at hp ⊢ <;> rfl
  · intro p sk env hp
    cases p <;> simp [BaseParams.isExcludedAccountParams] at hp ⊢ <;> rfl

/-- C5, witness: the wrong-variant rejection observed at concrete inputs
(an AccountParams value given to the HTTP and markets streamers, a
SymbolsParams value given to the account streamer). -/
theorem claim_C5_wrong_variant_witness :
    TradierHttpStreamer.run (BaseParams.accountParams "ACC1")
        ⟨Except.ok [], fun _ => false⟩
      = ([], RunExit.valueError
          "Invalid parameters for TradierHttpStreamer. Expected SymbolsParams.")
    ∧ TradierMarketsStreamer.run (BaseParams.accountParams "ACC1") "sk"
        ⟨Except.ok (), fun _ => false, [], Except.ok ()⟩
      = ([], RunExit.valueError
          "Invalid parameters for TradierMarketsStreamer. Expected SymbolsParams.")
    ∧ TradierAccountStreamer.run (BaseParams.symbolsParams ["SPY"]) "sk"
        ⟨Except.ok (), fun _ => false, [], Except.ok ()⟩
      = ([], RunExit.valueError
          "Invalid parameters for TradierAccountStreamer. Expected AccountParams.") :=
  ⟨claim_C5_wrong_variant.1 (BaseParams.accountParams "ACC1")
     ⟨Except.ok [], fun _ => false⟩ rfl,
   claim_C5_wrong_variant.2.1 (BaseParams.accountParams "ACC1") "sk"
     ⟨Except.ok (), fun _ => false, [], Except.ok ()⟩ rfl,
   claim_C5_wrong_variant.2.2 (BaseParams.symbolsParams ["SPY"]) "sk"
     ⟨Except.ok (), fun _ => false, [], Except.ok ()⟩ rfl⟩

/-- C4, counterexample: a parameter-validation failure performed inside the
worker is not converted into an onError invocation — the HTTP run on a
wrong-variant parameter raises ValueError out of run with an empty callback
trace, so the exception propagates out of run instead of reaching the
caller through a callback, contradicting the claim that all failures inside
the background context (including parameter validation) are caught at the
boundary of run. -/
theorem claim_C4_counterexample :
    TradierHttpStreamer.run (BaseParams.accountParams "ACC123")
        ⟨Except.ok [], fun _ => false⟩
      = ([], RunExit.valueError
          "Invalid parameters for TradierHttpStreamer. Expected SymbolsParams.") := by
  decide

/-- C4, amended: failures inside the background run that the transports
handle are converted into onError at the boundary of run and the run
returns normally — for the HTTP transport, connection-setup failures of the
handled exception types (TradierAPIException and requests exceptions) and
every run whose POST succeeds (per-line decode failures included); for both
WebSocket transports, every failure inside the stream coroutine. Parameter
validation is the exception: a wrong-variant parameter raises ValueError
out of run and is not reported through any callback. -/
theorem claim_C4_amended :
    (∀ (syms : List String) (env : HttpEnv) (e : StreamError),
       env.post = Except.error e → httpExceptClauseCatches e = true →
         TradierHttpStreamer.run (BaseParams.symbolsParams syms) env
           = ([Event.onOpen, Event.onError e, Event.onClose], RunExit.normal))
    ∧ (∀ (syms : List String) (env : HttpEnv) (lines : List (List Nat)),
         env.post = Except.ok lines →
           (TradierHttpStreamer.run (BaseParams.symbolsParams syms) env).2
             = RunExit.normal)
    ∧ (∀ (syms : List String) (sk : String) (env : WsEnv),
         (TradierMarketsStreamer.run (BaseParams.symbolsParams syms) sk env).2
           = RunExit.normal)
    ∧ (∀ (accts : List String) (sk : String) (env : WsEnv),
         (TradierAccountStreamer.run (BaseParams.excludedAccountParams accts) sk env).2
           = RunExit.normal)
    ∧ (∀ (p : BaseParams) (env : HttpEnv), p.isSymbolsParams = false →
         TradierHttpStreamer.run p env
           = ([], RunExit.valueError
               "Invalid parameters for TradierHttpStreamer. Expected SymbolsParams.")) := by
  refine ⟨?_, ?_, ?_, ?_, ?_⟩
  · intro syms env e hp hc
    unfold TradierHttpStreamer.run
    rw [hp]
    simp [hc]
  · intro syms env lines hp
    unfold TradierHttpStreamer.run
    rw [hp]
  · intro syms sk env
    show (TradierWebsocketStreamer.runStream _ _ _ _).2 = RunExit.normal
    unfold TradierWebsocketStreamer.runStream
    cases hc : env.connectSend with
    | error e => rfl
    | ok u =>
      cases hcl : env.closeSocket with
      | ok v => rfl
      | error e => rfl
  · intro accts sk env
    show (TradierWebsocketStreamer.runStream _ _ _ _).2 = RunExit.normal
    unfold TradierWebsocketStreamer.runStream
    cases hc : env.connectSend with
    | error e => rfl
    | ok u =>
      cases hcl : env.closeSocket with
      | ok v => rfl
      | error e => rfl
  · intro p env hp
    cases p <;> simp [BaseParams.isSymbolsParams] at hp ⊢ <;> rfl

/-- C4, witness for the amended theorem at concrete inputs: a caught
connection failure reported through onError with a normal return, a normal
return on a successful POST, normal returns of both WebSocket runs under a
receive-level failure, and the ValueError raised for a wrong-variant
parameter. -/
theorem claim_C4_amended_witness :
    TradierHttpStreamer.run (BaseParams.symbolsParams ["AAPL"])
        ⟨Except.error (StreamError.apiError "quota"), fun _ => false⟩
      = ([Event.onOpen, Event.onError (StreamError.apiError "quota"), Event.onClose],
         RunExit.normal)
    ∧ (TradierHttpStreamer.run (BaseParams.symbolsParams ["AAPL"])
        ⟨Except.ok [[0x61]], fun _ => false⟩).2 = RunExit.normal
    ∧ (TradierMarketsStreamer.run (BaseParams.symbolsParams ["SPY"]) "sk"
        ⟨Except.ok (), fun _ => false,
         [RecvResult.raised (StreamError.otherError "boom")], Except.ok ()⟩).2
      = RunExit.normal
    ∧ (TradierAccountStreamer.run (BaseParams.excludedAccountParams []) "sk"
        ⟨Except.error (StreamError.otherError "Connection error"), fun _ => false, [],
         Except.ok ()⟩).2 = RunExit.normal
    ∧ TradierHttpStreamer.run (BaseParams.watchlistParams "W1" none)
        ⟨Except.ok [], fun _ => false⟩
      = ([], RunExit.valueError
          "Invalid parameters for TradierHttpStreamer. Expected SymbolsParams.") :=
  ⟨claim_C4_amended.1 ["AAPL"]
     ⟨Except.error (StreamError.apiError "quota"), fun _ => false⟩
     (StreamError.apiError "quota") rfl rfl,
   claim_C4_amended.2.1 ["AAPL"] ⟨Except.ok [[0x61]], fun _ => false⟩ [[0x61]] rfl,
   claim_C4_amended.2.2.1 ["SPY"] "sk"
     ⟨Except.ok (), fun _ => false,
      [RecvResult.raised (StreamError.otherError "boom")], Except.ok ()⟩,
   claim_C4_amended.2.2.2.1 [] "sk"
     ⟨Except.error (StreamError.otherError "Connection error"), fun _ => false, [],
      Except.ok ()⟩,
   claim_C4_amended.2.2.2.2 (BaseParams.watchlistParams "W1" none)
     ⟨Except.ok [], fun _ => false⟩ rfl⟩

theorem httpStreamLoop_noStop (lines : List (List Nat)) :
    ∀ i : Nat, httpStreamLoop (fun _ => false) lines i = lines.flatMap processChunk := by
  induction lines with
  | nil => intro i; rfl
  | cons c rest ih =>
    intro i
    unfold httpStreamLoop
    simp only [Bool.false_eq_true, if_false, List.flatMap_cons]
    rw [ih (i + 1)]

theorem messagesOf_append (a b : List Event) :
    messagesOf (a ++ b) = messagesOf a ++ messagesOf b := by
  unfold messagesOf
  rw [List.filterMap_append]

theorem errorsOf_append (a b : List Event) :
    errorsOf (a ++ b) = errorsOf a ++ errorsOf b := by
  unfold errorsOf
  rw [List.filterMap_append]

theorem messagesOf_bind_processChunk (lines : List (List Nat)) :
    messagesOf (lines.flatMap processChunk)
      = (lines.filter (fun l => !l.isEmpty)).filterMap decodeUtf8 := by
  induction lines with
  | nil => rfl
  | cons c rest ih =>
    rw [List.flatMap_cons, messagesOf_append, ih, List.filter_cons]
    unfold processChunk
    cases he : c.isEmpty with
    | true => simp [he, messagesOf]
    | false =>
      cases hd : decodeUtf8 c with
      | some s => simp [he, hd, messagesOf, List.filterMap_cons]
      | none => simp [he, hd, messagesOf, List.filterMap_cons]

theorem errorsOf_bind_processChunk (lines : List (List Nat)) :
    errorsOf (lines.flatMap processChunk)
      = (((lines.filter (fun l => !l.isEmpty)).filter
            (fun l => (decodeUtf8 l).isNone)).map StreamError.decodeError) := by
  induction lines with
  | nil => rfl
  | cons c rest ih =>
    rw [List.flatMap_cons, errorsOf_append, ih, List.filter_cons]
    unfold processChunk
    cases he : c.isEmpty with
    | true => simp [he, errorsOf]
    | false =>
      cases hd : decodeUtf8 c with
      | some s => simp [he, hd, errorsOf, List.filter_cons, List.filterMap_cons]
      | none => simp [he, hd, errorsOf, List.filter_cons, List.filterMap_cons]

/-- C6: in the HTTP transport with the cancel signal never set and a
successful POST, the onMessage payloads of the run are exactly the UTF-8
decodings of the non-empty received lines, in arrival order (each forwarded
exactly once), and onError events arise only from non-empty undecodable
lines — empty lines produce no callback; in particular on the lines chunk1,
chunk2, chunk3 the run emits onOpen, the three messages in order and one
final onClose, with no onError. -/
theorem claim_C6_http_line_forwarding :
    (∀ (syms : List String) (lines : List (List Nat)),
       messagesOf (TradierHttpStreamer.run (BaseParams.symbolsParams syms)
           ⟨Except.ok lines, fun _ => false⟩).1
         = (lines.filter (fun l => !l.isEmpty)).filterMap decodeUtf8
       ∧ errorsOf (TradierHttpStreamer.run (BaseParams.symbolsParams syms)
           ⟨Except.ok lines, fun _ => false⟩).1
         = (((lines.filter (fun l => !l.isEmpty)).filter
              (fun l => (decodeUtf8 l).isNone)).map StreamError.decodeError))
    ∧ TradierHttpStreamer.run (BaseParams.symbolsParams ["AAPL"])
        ⟨Except.ok [[0x63, 0x68, 0x75, 0x6E, 0x6B, 0x31],
                    [0x63, 0x68, 0x75, 0x6E, 0x6B, 0x32],
                    [0x63, 0x68, 0x75, 0x6E, 0x6B, 0x33]], fun _ => false⟩
      = ([Event.onOpen, Event.onMessage "chunk1", Event.onMessage "chunk2",
          Event.onMessage "chunk3", Event.onClose], RunExit.normal) := by
  constructor
  · intro syms lines
    have htrace : (TradierHttpStreamer.run (BaseParams.symbolsParams syms)
        ⟨Except.ok lines, fun _ => false⟩).1
        = Event.onOpen :: (httpStreamLoop (fun _ => false) lines 0 ++ [Event.onClose]) := rfl
    rw [htrace, httpStreamLoop_noStop lines 0]
    constructor
    · show messagesOf (Event.onOpen :: (lines.flatMap processChunk ++ [Event.onClose]))
        = (lines.filter (fun l => !l.isEmpty)).filterMap decodeUtf8
      have h1 : messagesOf (Event.onOpen :: (lines.flatMap processChunk ++ [Event.onClose]))
          = messagesOf (lines.flatMap processChunk) := by
        unfold messagesOf
        rw [List.filterMap_cons, List.filterMap_append]
        simp
      rw [h1, messagesOf_bind_processChunk]
    · show errorsOf (Event.onOpen :: (lines.flatMap processChunk ++ [Event.onClose]))
        = (((lines.filter (fun l => !l.isEmpty)).filter
             (fun l => (decodeUtf8 l).isNone)).map StreamError.decodeError)
      have h1 : errorsOf (Event.onOpen :: (lines.flatMap processChunk ++ [Event.onClose]))
          = errorsOf (lines.flatMap processChunk) := by
        unfold errorsOf
        rw [List.filterMap_cons, List.filterMap_append]
        simp
      rw [h1, errorsOf_bind_processChunk]
  · decide

/-- C7: in the HTTP transport with the cancel signal never set, a non-empty
line that fails UTF-8 decoding is reported via exactly one onError carrying
that line and does not abort the loop — the lines before it and after it
are processed normally and the final onClose still fires. -/
theorem claim_C7_decode_failure (syms : List String) (pre post : List (List Nat))
    (bad : List Nat) (hbad : decodeUtf8 bad = none) (hne : bad.isEmpty = false) :
    (TradierHttpStreamer.run (BaseParams.symbolsParams syms)
        ⟨Except.ok (pre ++ bad :: post), fun _ => false⟩).1
      = Event.onOpen :: (pre.flatMap processChunk
          ++ Event.onError (StreamError.decodeError bad)
             :: (post.flatMap processChunk ++ [Event.onClose])) := by
  have htrace : (TradierHttpStreamer.run (BaseParams.symbolsParams syms)
      ⟨Except.ok (pre ++ bad :: post), fun _ => false⟩).1
      = Event.onOpen
        :: (httpStreamLoop (fun _ => false) (pre ++ bad :: post) 0 ++ [Event.onClose]) := rfl
  rw [htrace, httpStreamLoop_noStop (pre ++ bad :: post) 0]
  rw [List.flatMap_append, List.flatMap_cons]
  have hb : processChunk bad = [Event.onError (StreamError.decodeError bad)] := by
    unfold processChunk
    rw [hne, hbad]
    rfl
  rw [hb]
  simp

/-- C7, witness at the concrete input from the spec: lines valid_chunk then
the invalid bytes 0x80 0x81 0x82 produce onOpen, one onMessage with
valid_chunk, one onError carrying the undecodable line, and onClose. -/
theorem claim_C7_decode_failure_witness :
    decodeUtf8 [0x80, 0x81, 0x82] = none
    ∧ (TradierHttpStreamer.run (BaseParams.symbolsParams ["AAPL"])
        ⟨Except.ok [[0x76, 0x61, 0x6C, 0x69, 0x64, 0x5F, 0x63, 0x68, 0x75, 0x6E, 0x6B],
                    [0x80, 0x81, 0x82]], fun _ => false⟩).1
      = [Event.onOpen, Event.onMessage "valid_chunk",
         Event.onError (StreamError.decodeError [0x80, 0x81, 0x82]), Event.onClose] := by
  constructor
  · decide
  · have e1 : ([[0x76, 0x61, 0x6C, 0x69, 0x64, 0x5F, 0x63, 0x68, 0x75, 0x6E, 0x6B],
        [0x80, 0x81, 0x82]] : List (List Nat))
        = [[0x76, 0x61, 0x6C, 0x69, 0x64, 0x5F, 0x63, 0x68, 0x75, 0x6E, 0x6B]]
          ++ [0x80, 0x81, 0x82] :: [] := rfl
    rw [e1, claim_C7_decode_failure ["AAPL"]
      [[0x76, 0x61, 0x6C, 0x69, 0x64, 0x5F, 0x63, 0x68, 0x75, 0x6E, 0x6B]] []
      [0x80, 0x81, 0x82] (by decide) (by decide)]
    decide

theorem wsReceiveLoop_noStop_error_count (recv : List RecvResult) :
    ∀ i : Nat, countEvents Event.isError (wsReceiveLoop (fun _ => false) recv i)
      = if recv.any RecvResult.isRaised then 1 else 0 := by
  induction recv with
  | nil => intro i; rfl
  | cons r rest ih =>
    intro i
    unfold wsReceiveLoop
    simp only [Bool.false_eq_true, if_false]
    cases r with
    | frame m =>
      show countEvents Event.isError
        (Event.onMessage m :: wsReceiveLoop (fun _ => false) rest (i + 1)) = _
      unfold countEvents
      rw [List.filter_cons]
      have hf : Event.isError (Event.onMessage m) = false := rfl
      rw [hf]
      simp only [Bool.false_eq_true, if_false]
      have h := ih (i + 1)
      unfold countEvents at h
      rw [h, List.any_cons]
      rfl
    | timeout =>
      rw [ih (i + 1), List.any_cons]
      rfl
    | raised e =>
      rw [List.any_cons]
      rfl

theorem wsReceiveLoop_noStop_messages (recv : List RecvResult) :
    ∀ i : Nat, messagesOf (wsReceiveLoop (fun _ => false) recv i)
      = (recv.takeWhile (fun r => !r.isRaised)).filterMap RecvResult.frameMessage := by
  induction recv with
  | nil => intro i; rfl
  | cons r rest ih =>
    intro i
    unfold wsReceiveLoop
    simp only [Bool.false_eq_true, if_false]
    cases r with
    | frame m =>
      rw [List.takeWhile_cons]
      have ht : (!(RecvResult.frame m).isRaised) = true := rfl
      rw [ht]
      simp only [if_true]
      show messagesOf (Event.onMessage m :: wsReceiveLoop (fun _ => false) rest (i + 1))
        = (RecvResult.frame m :: rest.takeWhile (fun r => !r.isRaised)).filterMap
            RecvResult.frameMessage
      unfold messagesOf
      rw [List.filterMap_cons, List.filterMap_cons]
      have h := ih (i + 1)
      unfold messagesOf at h
      simp only [RecvResult.frameMessage]
      rw [h]
    | timeout =>
      rw [List.takeWhile_cons]
      have ht : (!RecvResult.timeout.isRaised) = true := rfl
      rw [ht]
      simp only [if_true]
      rw [List.filterMap_cons]
      have hf : RecvResult.frameMessage RecvResult.timeout = none := rfl
      rw [hf]
      exact ih (i + 1)
    | raised e =>
      rw [List.takeWhile_cons]
      have ht : (!(RecvResult.raised e).isRaised) = false := rfl
      rw [ht]
      rfl

/-- C8, counterexample: for the recv sequence message1, message2, timeout,
end-of-stream, the clean end-of-stream indicator raised by recv IS reported
through onError (the receive loop routes every non-timeout exception,
including the clean-close one, to onError before breaking), contradicting
the claim that a clean end-of-stream indicator ends the loop without being
reported through onError. -/
theorem claim_C8_counterexample :
    errorsOf (TradierMarketsStreamer.run (BaseParams.symbolsParams ["SPY"]) "sessionkey"
        ⟨Except.ok (), fun _ => false,
         [RecvResult.frame "message1", RecvResult.frame "message2",
          RecvResult.timeout, RecvResult.raised StreamError.endOfStream],
         Except.ok ()⟩).1
      = [StreamError.endOfStream] := by
  decide

/-- C8, amended: in the WebSocket receive loop a bounded-wait timeout never
produces an onError invocation — on timeout the loop re-checks the cancel
signal and continues waiting; any exception raised while awaiting a frame,
including the clean end-of-stream indicator, produces exactly one onError
and terminates the loop; with the cancel signal never set the onError count
of the loop is one exactly when some await raises and zero otherwise, and
the forwarded messages are the frames received before the first raise; in
particular on the recv sequence message1, message2, timeout, end-of-stream
the run emits onOpen once, the two messages, a single onError (carrying the
end-of-stream exception) and one final onClose, the timeout contributing no
event. -/
theorem claim_C8_timeout_and_failure :
    (∀ (stop : Nat → Bool) (rest : List RecvResult) (i : Nat), stop i = false →
       wsReceiveLoop stop (RecvResult.timeout :: rest) i = wsReceiveLoop stop rest (i + 1))
    ∧ (∀ recv : List RecvResult,
         countEvents Event.isError (wsReceiveLoop (fun _ => false) recv 0)
           = if recv.any RecvResult.isRaised then 1 else 0)
    ∧ (∀ recv : List RecvResult,
         messagesOf (wsReceiveLoop (fun _ => false) recv 0)
           = (recv.takeWhile (fun r => !r.isRaised)).filterMap RecvResult.frameMessage)
    ∧ TradierMarketsStreamer.run (BaseParams.symbolsParams ["SPY"]) "sessionkey"
        ⟨Except.ok (), fun _ => false,
         [RecvResult.frame "message1", RecvResult.frame "message2",
          RecvResult.timeout, RecvResult.raised StreamError.endOfStream],
         Except.ok ()⟩
      = ([Event.onOpen, Event.onMessage "message1", Event.onMessage "message2",
          Event.onError StreamError.endOfStream, Event.onClose], RunExit.normal) := by
  refine ⟨?_, ?_, ?_, ?_⟩
  · intro stop rest i hs
    have h1 : wsReceiveLoop stop (RecvResult.timeout :: rest) i
        = if stop i = true then [] else wsReceiveLoop stop rest (i + 1) := by
      simp only [wsReceiveLoop]
    rw [h1, hs]
    simp
  · intro recv
    exact wsReceiveLoop_noStop_error_count recv 0
  · intro recv
    exact wsReceiveLoop_noStop_messages recv 0
  · decide

/-- C8, witness for the amended theorem at concrete inputs: a timeout at an
unset stop signal is skipped and the loop continues, the error count and
message list of the loop on the spec recv sequence match the closed-form
expressions, and the full example run evaluates as stated. -/
theorem claim_C8_timeout_and_failure_witness :
    wsReceiveLoop (fun _ => false) [RecvResult.timeout] 0
        = wsReceiveLoop (fun _ => false) [] 1
    ∧ countEvents Event.isError (wsReceiveLoop (fun _ => false)
        [RecvResult.timeout, RecvResult.raised StreamError.endOfStream] 0)
      = (if ([RecvResult.timeout,
              RecvResult.raised StreamError.endOfStream].any RecvResult.isRaised)
         then 1 else 0)
    ∧ messagesOf (wsReceiveLoop (fun _ => false)
        [RecvResult.frame "message1", RecvResult.timeout] 0)
      = ([RecvResult.frame "message1",
          RecvResult.timeout].takeWhile (fun r => !r.isRaised)).filterMap
          RecvResult.frameMessage
    ∧ TradierMarketsStreamer.run (BaseParams.symbolsParams ["SPY"]) "sessionkey"
        ⟨Except.ok (), fun _ => false,
         [RecvResult.frame "message1", RecvResult.frame "message2",
          RecvResult.timeout, RecvResult.raised StreamError.endOfStream],
         Except.ok ()⟩
      = ([Event.onOpen, Event.onMessage "message1", Event.onMessage "message2",
          Event.onError StreamError.endOfStream, Event.onClose], RunExit.normal) :=
  ⟨claim_C8_timeout_and_failure.1 (fun _ => false) [] 0 rfl,
   claim_C8_timeout_and_failure.2.1
     [RecvResult.timeout, RecvResult.raised StreamError.endOfStream],
   claim_C8_timeout_and_failure.2.2.1
     [RecvResult.frame "message1", RecvResult.timeout],
   claim_C8_timeout_and_failure.2.2.2⟩
